import Mathlib

/-!
Verification of the user identity lifecycle of the Medium-blog backend
(`src/13/Medium-blog/backend/src/routes/user.ts`): the signup and signin
route handlers, embedded shallowly.  The zod schemas (`signupInput`,
`signinInput` from the external `medium-vlog-project` package), the Prisma
account store and the hono/jwt `sign` function are external collaborators
not present in the repository; they are modelled from the spec where a
claim depends on them, and otherwise left as parameters of the handlers.
-/

namespace MediumBlog

/-- A stored user record, as created by `prisma.user.create`.  The `id` is
assigned by the store; `email` is unique across the store. -/
structure User where
  id : Nat
  name : Option String
  email : String
  password : String
deriving DecidableEq, Repr

/-- A parsed JSON request body.  Only the fields the handlers read are kept;
an absent field is `none` (JS `undefined`). -/
structure Body where
  name : Option String
  email : Option String
  password : Option String
deriving DecidableEq, Repr

/-- The incoming request: either `c.req.json()` throws (unparseable body) or
it yields a structured body. -/
inductive Request where
  | malformed
  | body (b : Body)
deriving DecidableEq, Repr

/-- The JSON value returned by `c.json(...)`: either a plain string, or an
object whose fields are string-valued (the only shapes the handlers emit). -/
inductive Json where
  | str (s : String)
  | obj (fields : List (String × String))
deriving DecidableEq, Repr

/-- A response: the HTTP status (Hono defaults to 200 unless `c.status` was
called) and the JSON body. -/
structure Response where
  status : Nat
  body : Json
deriving DecidableEq, Repr

/-- Calls issued to the account store during one request. -/
inductive StoreCall where
  | create (name : Option String) (email : String) (password : String)
  | findUnique (email : String) (password : String)
deriving DecidableEq, Repr

/-- Outcome of `await sign(payload, secret)`: a returned token string, or a
thrown error. -/
inductive SignResult where
  | ok (token : String)
  | err
deriving DecidableEq, Repr

/-- JS truthiness of an optional string: `undefined` and the empty string are
falsy. -/
def falsy : Option String → Bool
  | none => true
  | some s => s = ""

/-- Modelled from the spec: `signupInput` comes from the external
`medium-vlog-project` package, absent from the repository.  Per the spec the
signup schema requires a present, well-formed email (well-formedness is
abstracted as the parameter `emailOk`) and a present password; `name` is
optional. -/
def signupValid (emailOk : String → Bool) (b : Body) : Bool :=
  match b.email, b.password with
  | some e, some _ => emailOk e
  | _, _ => false

/-- Modelled from the spec: `signinInput` comes from the external
`medium-vlog-project` package, absent from the repository.  Per the spec the
signin schema requires `email` and `password` to be present and
format-checked (the format checks are abstracted as parameters). -/
def signinValid (emailOk passwordOk : String → Bool) (b : Body) : Bool :=
  match b.email, b.password with
  | some e, some p => emailOk e && passwordOk p
  | _, _ => false

/-- The success body of signup: note the misspelled key `mesaage` in the
source (`return c.json({ mesaage: "User created Successfully", token })`). -/
def signupSuccessBody (token : String) : Json :=
  Json.obj [("mesaage", "User created Successfully"), ("token", token)]

/-- The success body of signin
(`return c.json({ message: "User logged in successfully", token })`). -/
def signinSuccessBody (token : String) : Json :=
  Json.obj [("message", "User logged in successfully"), ("token", token)]

/-- The signup handler (`userRouter.post("/signup")`), translated branch by
branch from the source.  `signFn` is the hono/jwt `sign` collaborator,
`secret` is `c.env.JWT_SECRET`, `store` the account store contents and
`nextId` the id the store would assign to a newly created record.  Returns
the response, the list of store calls issued, and the store contents after
the request.  `prisma.user.create` throws on a duplicate email (unique
constraint), which lands in the generic catch. -/
def signupHandler (emailOk : String → Bool) (signFn : Nat → String → SignResult)
    (secret : String) (store : List User) (nextId : Nat) (req : Request) :
    Response × List StoreCall × List User :=
  match req with
  | Request.malformed => (⟨500, Json.str "Failed to create user"⟩, [], store)
  | Request.body b =>
    if signupValid emailOk b = false then
      (⟨411, Json.str "Invalid input"⟩, [], store)
    else if falsy b.email || falsy b.password then
      (⟨200, Json.str "Invalid email or password"⟩, [], store)
    else
      let e := b.email.getD ""
      let p := b.password.getD ""
      if store.any (fun u => u.email == e) then
        (⟨500, Json.str "Failed to create user"⟩, [StoreCall.create b.name e p], store)
      else
        let u : User := ⟨nextId, b.name, e, p⟩
        match signFn nextId secret with
        | SignResult.err =>
          (⟨500, Json.str "Failed to create user"⟩, [StoreCall.create b.name e p],
           store ++ [u])
        | SignResult.ok token =>
          if token = "" then
            (⟨500, Json.str "Failed to create token"⟩, [StoreCall.create b.name e p],
             store ++ [u])
          else
            (⟨200, signupSuccessBody token⟩, [StoreCall.create b.name e p],
             store ++ [u])

/-- The signin handler (`userRouter.post("/signin")`), translated branch by
branch from the source.  `prisma.user.findUnique` with a `where` on both
`email` and `password` returns the record matching both, or null.  Note:
unlike signup, there is no falsy check on the token returned by `sign`. -/
def signinHandler (emailOk passwordOk : String → Bool)
    (signFn : Nat → String → SignResult) (secret : String) (store : List User)
    (req : Request) : Response × List StoreCall :=
  match req with
  | Request.malformed => (⟨500, Json.str "Failed to login"⟩, [])
  | Request.body b =>
    if signinValid emailOk passwordOk b = false then
      (⟨411, Json.str "Invalid input"⟩, [])
    else
      let e := b.email.getD ""
      let p := b.password.getD ""
      match store.find? (fun u => u.email == e && u.password == p) with
      | none => (⟨404, Json.str "User not found"⟩, [StoreCall.findUnique e p])
      | some u =>
        match signFn u.id secret with
        | SignResult.err =>
          (⟨500, Json.str "Failed to login"⟩, [StoreCall.findUnique e p])
        | SignResult.ok token =>
          (⟨200, signinSuccessBody token⟩, [StoreCall.findUnique e p])

/-- Whether a JSON body is an object carrying the given key. -/
def hasField (key : String) : Json → Bool
  | Json.str _ => false
  | Json.obj fields => fields.any (fun kv => kv.1 == key)

/-- Whether a JSON body carries a human-readable message: either it is a
plain string (the message itself), or an object with a `message` field — or
the misspelled `mesaage` field the signup success path emits. -/
def humanReadable : Json → Bool
  | Json.str _ => true
  | Json.obj fields => fields.any (fun kv => kv.1 == "message" || kv.1 == "mesaage")

/-- A decimal digit rendered as a character. -/
def digitToChar (d : Nat) : Char :=
  if d = 0 then '0' else if d = 1 then '1' else if d = 2 then '2'
  else if d = 3 then '3' else if d = 4 then '4' else if d = 5 then '5'
  else if d = 6 then '6' else if d = 7 then '7' else if d = 8 then '8'
  else '9'

/-- The digit value of a character (inverse of `digitToChar` on digits). -/
def charToDigit (c : Char) : Nat :=
  if c = '0' then 0 else if c = '1' then 1 else if c = '2' then 2
  else if c = '3' then 3 else if c = '4' then 4 else if c = '5' then 5
  else if c = '6' then 6 else if c = '7' then 7 else if c = '8' then 8
  else 9

/-- The payload characters of a token: the account id in decimal digits
(little-endian, via `Nat.digits`). -/
def encodeId (id : Nat) : List Char :=
  (Nat.digits 10 id).map digitToChar

/-- Reads an account id back from payload characters. -/
def decodeId (l : List Char) : Nat :=
  Nat.ofDigits 10 (l.map charToDigit)

/-- Modelled from the spec: the hono/jwt `sign` function is absent from the
repository.  The spec describes the session token as an opaque string
derived from the payload carrying the account id together with a
process-wide secret, and decodable with the same secret.  The token is the
secret, a separator, and the encoded id. -/
def signToken (id : Nat) (secret : String) : String :=
  secret ++ "." ++ String.mk (encodeId id)

/-- Strips an expected leading character sequence, or fails. -/
def dropExpected : List Char → List Char → Option (List Char)
  | [], l => some l
  | _ :: _, [] => none
  | c :: cs, d :: ds => if c = d then dropExpected cs ds else none

/-- Modelled from the spec: decoding a session token with a signing secret.
Checks that the token was formed with this secret and reads the account id
out of the payload; fails when the secret does not match. -/
def decodeToken (token secret : String) : Option Nat :=
  match dropExpected (secret.data ++ [ '.' ]) token.data with
  | none => none
  | some rest => some (decodeId rest)

theorem charToDigit_digitToChar {d : Nat} (hd : d < 10) :
    charToDigit (digitToChar d) = d := by
  interval_cases d <;> rfl

theorem decodeId_encodeId (n : Nat) : decodeId (encodeId n) = n := by
  unfold decodeId encodeId
  rw [List.map_map]
  have h : ∀ d ∈ Nat.digits 10 n, (charToDigit ∘ digitToChar) d = d := by
    intro d hd
    exact charToDigit_digitToChar (Nat.digits_lt_base (by norm_num) hd)
  rw [List.map_congr_left h]
  simp [Nat.ofDigits_digits]

theorem dropExpected_append (p r : List Char) :
    dropExpected p (p ++ r) = some r := by
  induction p with
  | nil => rfl
  | cons c cs ih => simp [dropExpected, ih]

theorem data_signToken (id : Nat) (secret : String) :
    (signToken id secret).data = secret.data ++ '.' :: encodeId id := by
  show (secret ++ "." ++ String.mk (encodeId id)).data = _
  rw [String.data_append, String.data_append]
  simp

theorem decodeToken_signToken (id : Nat) (secret : String) :
    decodeToken (signToken id secret) secret = some id := by
  unfold decodeToken
  rw [data_signToken]
  have h : secret.data ++ '.' :: encodeId id = (secret.data ++ [ '.' ]) ++ encodeId id := by
    simp
  rw [h, dropExpected_append]
  simp [decodeId_encodeId]

theorem signToken_ne_empty (id : Nat) (secret : String) :
    signToken id secret ≠ "" := by
  intro h
  have h2 := congrArg String.data h
  rw [data_signToken] at h2
  simp at h2

theorem find?_eq_of_unique {α : Type} (pr : α → Bool) :
    ∀ (l : List α) (u : α), u ∈ l → pr u = true →
      (∀ v, v ∈ l → pr v = true → v = u) → l.find? pr = some u
  | [], u, hu, _, _ => absurd hu (List.not_mem_nil u)
  | x :: xs, u, hu, hpu, huniq => by
    by_cases hx : pr x = true
    · have hxu : x = u := huniq x (List.mem_cons_self x xs) hx
      subst hxu
      simp [List.find?, hx]
    · have hxu : x ≠ u := fun h => hx (h ▸ hpu)
      have hu2 : u ∈ xs := by
        rcases List.mem_cons.1 hu with h | h
        · exact absurd h.symm hxu
        · exact h
      have := find?_eq_of_unique pr xs u hu2 hpu
        (fun v hv hpv => huniq v (List.mem_cons_of_mem x hv) hpv)
      simp [List.find?, hx, this]

/-- C1: for a schema-valid signin body, if exactly one stored account carries
both the supplied email and password then the handler answers 200 with the
token signed for that account's id; if no account matches, it answers the
fixed response 404 `User not found`, the same constant whether the email is
unknown or the password is wrong. -/
theorem signin_unique_match_token_and_uniform_notfound
    (emailOk passwordOk : String → Bool) (signFn : Nat → String → SignResult)
    (secret : String) (store : List User) (b : Body) (e p : String)
    (he : b.email = some e) (hp : b.password = some p)
    (hv : signinValid emailOk passwordOk b = true) :
    (∀ u tok, u ∈ store → u.email = e → u.password = p →
      (∀ v, v ∈ store → v.email = e → v.password = p → v = u) →
      signFn u.id secret = SignResult.ok tok →
      (signinHandler emailOk passwordOk signFn secret store (Request.body b)).1 =
        ⟨200, signinSuccessBody tok⟩) ∧
    ((∀ u, u ∈ store → ¬ (u.email = e ∧ u.password = p)) →
      (signinHandler emailOk passwordOk signFn secret store (Request.body b)).1 =
        ⟨404, Json.str "User not found"⟩) := by
  have he2 : b.email.getD "" = e := by rw [he]; rfl
  have hp2 : b.password.getD "" = p := by rw [hp]; rfl
  constructor
  · intro u tok hu hue hup huniq hsign
    have hfind : store.find?
        (fun v => v.email == b.email.getD "" && v.password == b.password.getD "") =
        some u := by
      rw [he2, hp2]
      apply find?_eq_of_unique _ store u hu
      · simp [hue, hup]
      · intro v hv2 hpv
        simp at hpv
        exact huniq v hv2 hpv.1 hpv.2
    simp [signinHandler, hv, hfind, hsign]
  · intro hnone
    have hfind : store.find?
        (fun v => v.email == b.email.getD "" && v.password == b.password.getD "") =
        none := by
      rw [he2, hp2, List.find?_eq_none]
      intro v hv2
      simp
      intro hve hvp
      exact hnone v hv2 ⟨hve, hvp⟩
    simp [signinHandler, hv, hfind]

/-- C1 witness: a one-account store where the credentials match yields the
200 success with the signed token, and the same store with a wrong password
yields the constant 404 response. -/
theorem signin_unique_match_token_and_uniform_notfound_witness :
    (signinHandler (fun _ => true) (fun _ => true)
        (fun i _ => SignResult.ok (String.mk (encodeId i))) "sec"
        [⟨1, none, "a@x.com", "p1"⟩]
        (Request.body ⟨none, some "a@x.com", some "p1"⟩)).1 =
      ⟨200, signinSuccessBody (String.mk (encodeId 1))⟩ ∧
    (signinHandler (fun _ => true) (fun _ => true)
        (fun i _ => SignResult.ok (String.mk (encodeId i))) "sec"
        [⟨1, none, "a@x.com", "p1"⟩]
        (Request.body ⟨none, some "a@x.com", some "wrong"⟩)).1 =
      ⟨404, Json.str "User not found"⟩ := by
  constructor
  · exact (signin_unique_match_token_and_uniform_notfound (fun _ => true) (fun _ => true)
      (fun i _ => SignResult.ok (String.mk (encodeId i))) "sec"
      [⟨1, none, "a@x.com", "p1"⟩] ⟨none, some "a@x.com", some "p1"⟩
      "a@x.com" "p1" rfl rfl rfl).1 ⟨1, none, "a@x.com", "p1"⟩
      (String.mk (encodeId 1)) (by simp) rfl rfl
      (by intro v hv2 _ _; simp at hv2; exact hv2) rfl
  · exact (signin_unique_match_token_and_uniform_notfound (fun _ => true) (fun _ => true)
      (fun i _ => SignResult.ok (String.mk (encodeId i))) "sec"
      [⟨1, none, "a@x.com", "p1"⟩] ⟨none, some "a@x.com", some "wrong"⟩
      "a@x.com" "wrong" rfl rfl rfl).2 (by decide)

/-- C2: a signup or signin body missing `email` or `password` fails the
spec-modelled schema, is answered 411 `Invalid input`, and issues no account
store call at all. -/
theorem missing_field_rejected_without_store_call
    (emailOk passwordOk : String → Bool) (signFn : Nat → String → SignResult)
    (secret : String) (store : List User) (nextId : Nat) (b : Body)
    (hmiss : b.email = none ∨ b.password = none) :
    signupHandler emailOk signFn secret store nextId (Request.body b) =
      (⟨411, Json.str "Invalid input"⟩, [], store) ∧
    signinHandler emailOk passwordOk signFn secret store (Request.body b) =
      (⟨411, Json.str "Invalid input"⟩, []) := by
  obtain ⟨n, e, p⟩ := b
  simp only at hmiss
  have hs : signupValid emailOk ⟨n, e, p⟩ = false := by
    rcases hmiss with h | h
    · subst h; cases p <;> rfl
    · subst h; cases e <;> rfl
  have hi : signinValid emailOk passwordOk ⟨n, e, p⟩ = false := by
    rcases hmiss with h | h
    · subst h; cases p <;> rfl
    · subst h; cases e <;> rfl
  constructor
  · simp [signupHandler, hs]
  · simp [signinHandler, hi]

/-- C2 witness: a body with an email but no password is rejected with 411 by
both handlers without touching the store. -/
theorem missing_field_rejected_without_store_call_witness :
    signupHandler (fun _ => true) (fun _ _ => SignResult.err) "sec" [] 1
        (Request.body ⟨none, some "a@x.com", none⟩) =
      (⟨411, Json.str "Invalid input"⟩, [], []) ∧
    signinHandler (fun _ => true) (fun _ => true) (fun _ _ => SignResult.err) "sec" []
        (Request.body ⟨none, some "a@x.com", none⟩) =
      (⟨411, Json.str "Invalid input"⟩, []) :=
  missing_field_rejected_without_store_call (fun _ => true) (fun _ => true)
    (fun _ _ => SignResult.err) "sec" [] 1 ⟨none, some "a@x.com", none⟩ (Or.inr rfl)

theorem signup_success_body_token_ne_empty
    (emailOk : String → Bool) (signFn : Nat → String → SignResult) (secret : String)
    (store : List User) (nextId : Nat) (req : Request) (tok : String)
    (h : (signupHandler emailOk signFn secret store nextId req).1.body =
      signupSuccessBody tok) : tok ≠ "" := by
  unfold signupHandler at h
  cases req with
  | malformed => simp [signupSuccessBody] at h
  | body b =>
    simp only at h
    split at h
    · simp [signupSuccessBody] at h
    · split at h
      · simp [signupSuccessBody] at h
      · split at h
        · simp [signupSuccessBody] at h
        · split at h
          · simp [signupSuccessBody] at h
          · split at h
            · simp [signupSuccessBody] at h
            · rename_i htok
              simp [signupSuccessBody] at h
              rw [← h]
              exact htok

/-- C3 counterexample: a duplicate-email signup produces exactly the same
response as an entirely different failure (an unparseable body): both are
500 `Failed to create user`, so the duplicate is not surfaced as a
distinguishable conflict outcome. -/
theorem signup_duplicate_indistinguishable_cex :
    (signupHandler (fun _ => true) (fun _ _ => SignResult.ok "t") "sec"
        [⟨1, none, "a@x.com", "p0"⟩] 2
        (Request.body ⟨none, some "a@x.com", some "p1"⟩)).1 =
      (signupHandler (fun _ => true) (fun _ _ => SignResult.ok "t") "sec"
        [⟨1, none, "a@x.com", "p0"⟩] 2 Request.malformed).1 := by
  decide

/-- C3 amended: a signup whose email already belongs to a stored account
never succeeds a second time — the store is unchanged and no success body is
returned — but the duplicate is reported as the generic 500
`Failed to create user`, indistinguishable from other internal failures,
not as a distinct conflict outcome. -/
theorem signup_duplicate_never_succeeds
    (emailOk : String → Bool) (signFn : Nat → String → SignResult) (secret : String)
    (store : List User) (nextId : Nat) (b : Body) (e : String) (u : User)
    (he : b.email = some e) (hu : u ∈ store) (hue : u.email = e) :
    (signupHandler emailOk signFn secret store nextId (Request.body b)).2.2 = store ∧
    (∀ tok, (signupHandler emailOk signFn secret store nextId (Request.body b)).1.body ≠
      signupSuccessBody tok) ∧
    (signupValid emailOk b = true → falsy b.email = false → falsy b.password = false →
      (signupHandler emailOk signFn secret store nextId (Request.body b)).1 =
        ⟨500, Json.str "Failed to create user"⟩) := by
  have hany : store.any (fun v => v.email == b.email.getD "") = true := by
    rw [List.any_eq_true]
    exact ⟨u, hu, by simp [he, hue]⟩
  by_cases hval : signupValid emailOk b = false
  · refine ⟨by simp [signupHandler, hval], ?_, ?_⟩
    · intro tok
      simp [signupHandler, hval, signupSuccessBody]
    · intro hv
      rw [hval] at hv
      exact absurd hv (by simp)
  · rw [Bool.not_eq_false] at hval
    by_cases hfal : (falsy b.email || falsy b.password) = true
    · refine ⟨by simp [signupHandler, hval, hfal], ?_, ?_⟩
      · intro tok
        simp [signupHandler, hval, hfal, signupSuccessBody]
      · intro _ hfe hfp
        rw [hfe, hfp] at hfal
        exact absurd hfal (by simp)
    · rw [Bool.not_eq_true, Bool.or_eq_false_iff] at hfal
      refine ⟨?_, ?_, ?_⟩
      · simp [signupHandler, hval, hfal.1, hfal.2, hany]
      · intro tok
        simp [signupHandler, hval, hfal.1, hfal.2, hany, signupSuccessBody]
      · intro _ _ _
        simp [signupHandler, hval, hfal.1, hfal.2, hany]

/-- C3 witness: the second signup with the already-stored email `a@x.com`
leaves the store unchanged and answers the generic 500. -/
theorem signup_duplicate_never_succeeds_witness :
    (signupHandler (fun _ => true) (fun _ _ => SignResult.ok "t") "sec"
        [⟨1, none, "a@x.com", "p0"⟩] 2
        (Request.body ⟨none, some "a@x.com", some "p1"⟩)).2.2 =
      [⟨1, none, "a@x.com", "p0"⟩] ∧
    (∀ tok, (signupHandler (fun _ => true) (fun _ _ => SignResult.ok "t") "sec"
        [⟨1, none, "a@x.com", "p0"⟩] 2
        (Request.body ⟨none, some "a@x.com", some "p1"⟩)).1.body ≠
      signupSuccessBody tok) ∧
    ((signupValid (fun _ => true) ⟨none, some "a@x.com", some "p1"⟩ = true →
      falsy (some "a@x.com") = false → falsy (some "p1") = false →
      (signupHandler (fun _ => true) (fun _ _ => SignResult.ok "t") "sec"
        [⟨1, none, "a@x.com", "p0"⟩] 2
        (Request.body ⟨none, some "a@x.com", some "p1"⟩)).1 =
        ⟨500, Json.str "Failed to create user"⟩)) :=
  signup_duplicate_never_succeeds (fun _ => true) (fun _ _ => SignResult.ok "t") "sec"
    [⟨1, none, "a@x.com", "p0"⟩] 2 ⟨none, some "a@x.com", some "p1"⟩ "a@x.com"
    ⟨1, none, "a@x.com", "p0"⟩ rfl (by simp) rfl

/-- C4: at a fresh, schema-valid signup the handler creates exactly one
account and answers 200 with a nonempty token, but the success body spells
the message key `mesaage`, so the `message` field the claim promises is
absent. -/
theorem signup_fresh_success_mesaage_typo :
    (signupHandler (fun _ => true) (fun _ _ => SignResult.ok "t1") "sec" [] 1
        (Request.body ⟨none, some "a@x.com", some "p1"⟩)) =
      (⟨200, Json.obj [("mesaage", "User created Successfully"), ("token", "t1")]⟩,
       [StoreCall.create none "a@x.com" "p1"],
       [⟨1, none, "a@x.com", "p1"⟩]) ∧
    hasField "message"
      ((signupHandler (fun _ => true) (fun _ _ => SignResult.ok "t1") "sec" [] 1
        (Request.body ⟨none, some "a@x.com", some "p1"⟩)).1.body) = false := by
  decide

/-- C5 counterexample: a signup where creation succeeds (the new record is
persisted to the store) but signing throws is answered with the very same
response as a pure creation failure (here: a duplicate email), namely 500
`Failed to create user` — the token-issuance failure is not distinct. -/
theorem signup_sign_throw_indistinct_cex :
    (signupHandler (fun _ => true) (fun _ _ => SignResult.err) "sec" [] 1
        (Request.body ⟨none, some "a@x.com", some "p1"⟩)).2.2 =
      [⟨1, none, "a@x.com", "p1"⟩] ∧
    (signupHandler (fun _ => true) (fun _ _ => SignResult.err) "sec" [] 1
        (Request.body ⟨none, some "a@x.com", some "p1"⟩)).1 =
      (signupHandler (fun _ => true) (fun _ _ => SignResult.ok "t") "sec"
        [⟨1, none, "a@x.com", "p1"⟩] 2
        (Request.body ⟨none, some "a@x.com", some "p2"⟩)).1 := by
  decide

/-- C5 amended: when `sign` returns a falsy (empty) token, signup answers
the distinct 500 `Failed to create token`; when `sign` throws, the failure
is caught by the generic handler and answered with the creation-failure
response 500 `Failed to create user`, so it is not distinct; in neither
case is a success outcome returned, and every signup success body carries a
nonempty token. -/
theorem signup_token_failure_behaviour
    (emailOk : String → Bool) (signFn : Nat → String → SignResult) (secret : String)
    (store : List User) (nextId : Nat) (b : Body) (e p : String)
    (he : b.email = some e) (hp : b.password = some p)
    (hv : signupValid emailOk b = true) (hef : e ≠ "") (hpf : p ≠ "")
    (hfresh : store.any (fun u => u.email == e) = false) :
    (signFn nextId secret = SignResult.ok "" →
      signupHandler emailOk signFn secret store nextId (Request.body b) =
        (⟨500, Json.str "Failed to create token"⟩, [StoreCall.create b.name e p],
         store ++ [⟨nextId, b.name, e, p⟩])) ∧
    (signFn nextId secret = SignResult.err →
      signupHandler emailOk signFn secret store nextId (Request.body b) =
        (⟨500, Json.str "Failed to create user"⟩, [StoreCall.create b.name e p],
         store ++ [⟨nextId, b.name, e, p⟩])) ∧
    (∀ req store2 nextId2 tok,
      (signupHandler emailOk signFn secret store2 nextId2 req).1.body =
        signupSuccessBody tok → tok ≠ "") := by
  have hfe : falsy b.email = false := by rw [he]; simp [falsy]; exact hef
  have hfp : falsy b.password = false := by rw [hp]; simp [falsy]; exact hpf
  have he2 : b.email.getD "" = e := by rw [he]; rfl
  have hp2 : b.password.getD "" = p := by rw [hp]; rfl
  have hfresh2 : ∀ x ∈ store, ¬ x.email = e := by simpa using hfresh
  refine ⟨?_, ?_, ?_⟩
  · intro hsign
    simp [signupHandler, hv, hfe, hfp, hsign, he2, hp2]
    exact hfresh2
  · intro hsign
    simp [signupHandler, hv, hfe, hfp, hsign, he2, hp2]
    exact hfresh2
  · intro req store2 nextId2 tok h
    exact signup_success_body_token_ne_empty emailOk signFn secret store2 nextId2 req tok h

/-- C5 witness: with a signing function that returns the empty token, the
fresh signup answers 500 `Failed to create token`, and a signup success body
never carries an empty token. -/
theorem signup_token_failure_behaviour_witness :
    (signupHandler (fun _ => true) (fun _ _ => SignResult.ok "") "sec" [] 1
        (Request.body ⟨none, some "a@x.com", some "p1"⟩) =
      (⟨500, Json.str "Failed to create token"⟩, [StoreCall.create none "a@x.com" "p1"],
       [⟨1, none, "a@x.com", "p1"⟩])) ∧
    (∀ req store2 nextId2 tok,
      (signupHandler (fun _ => true) (fun _ _ => SignResult.ok "") "sec" store2 nextId2
        req).1.body = signupSuccessBody tok → tok ≠ "") := by
  have h := signup_token_failure_behaviour (fun _ => true) (fun _ _ => SignResult.ok "")
    "sec" [] 1 ⟨none, some "a@x.com", some "p1"⟩ "a@x.com" "p1" rfl rfl rfl
    (by decide) (by decide) rfl
  exact ⟨h.1 rfl, h.2.2⟩

/-- C6 counterexample: on a matching account, when `sign` yields the empty
(falsy) token, signin answers 200 success carrying the empty token, whereas
signup at the very same signing outcome answers 500 `Failed to create
token` — signin does not behave as signup step 5. -/
theorem signin_empty_token_success_cex :
    (signinHandler (fun _ => true) (fun _ => true) (fun _ _ => SignResult.ok "") "sec"
        [⟨1, none, "a@x.com", "p1"⟩]
        (Request.body ⟨none, some "a@x.com", some "p1"⟩)).1 =
      ⟨200, signinSuccessBody ""⟩ ∧
    (signupHandler (fun _ => true) (fun _ _ => SignResult.ok "") "sec" [] 1
        (Request.body ⟨none, some "a@x.com", some "p1"⟩)).1 =
      ⟨500, Json.str "Failed to create token"⟩ := by
  decide

/-- C6 amended: signin lacks signup's falsy-token guard: on a matching
account it answers 200 success carrying whatever token string `sign`
returned — including the empty token — and only a thrown signing error is
answered with 500 `Failed to login`. -/
theorem signin_token_issuance_behaviour
    (emailOk passwordOk : String → Bool) (signFn : Nat → String → SignResult)
    (secret : String) (store : List User) (b : Body) (u : User)
    (hv : signinValid emailOk passwordOk b = true)
    (hfind : store.find?
        (fun v => v.email == b.email.getD "" && v.password == b.password.getD "") =
      some u) :
    (∀ tok, signFn u.id secret = SignResult.ok tok →
      (signinHandler emailOk passwordOk signFn secret store (Request.body b)).1 =
        ⟨200, signinSuccessBody tok⟩) ∧
    (signFn u.id secret = SignResult.err →
      (signinHandler emailOk passwordOk signFn secret store (Request.body b)).1 =
        ⟨500, Json.str "Failed to login"⟩) := by
  constructor
  · intro tok hsign
    simp [signinHandler, hv, hfind, hsign]
  · intro hsign
    simp [signinHandler, hv, hfind, hsign]

/-- C6 witness: on the matching one-account store, a signing function that
returns the empty token makes signin answer 200 success with the empty
token. -/
theorem signin_token_issuance_behaviour_witness :
    (signinHandler (fun _ => true) (fun _ => true) (fun _ _ => SignResult.ok "") "sec"
        [⟨1, none, "a@x.com", "p1"⟩]
        (Request.body ⟨none, some "a@x.com", some "p1"⟩)).1 =
      ⟨200, signinSuccessBody ""⟩ :=
  (signin_token_issuance_behaviour (fun _ => true) (fun _ => true)
    (fun _ _ => SignResult.ok "") "sec" [⟨1, none, "a@x.com", "p1"⟩]
    ⟨none, some "a@x.com", some "p1"⟩ ⟨1, none, "a@x.com", "p1"⟩ rfl (by decide)).1
    "" rfl

theorem signupHandler_result_cases
    (emailOk : String → Bool) (signFn : Nat → String → SignResult) (secret : String)
    (store : List User) (nextId : Nat) (req : Request) :
    (signupHandler emailOk signFn secret store nextId req).1 =
        ⟨500, Json.str "Failed to create user"⟩ ∨
      (signupHandler emailOk signFn secret store nextId req).1 =
        ⟨411, Json.str "Invalid input"⟩ ∨
      (signupHandler emailOk signFn secret store nextId req).1 =
        ⟨200, Json.str "Invalid email or password"⟩ ∨
      (signupHandler emailOk signFn secret store nextId req).1 =
        ⟨500, Json.str "Failed to create token"⟩ ∨
      ∃ tok, ¬ tok = "" ∧ (signupHandler emailOk signFn secret store nextId req).1 =
        ⟨200, signupSuccessBody tok⟩ := by
  cases req with
  | malformed => left; rfl
  | body b =>
    by_cases hval : signupValid emailOk b = false
    · right; left; simp [signupHandler, hval]
    · rw [Bool.not_eq_false] at hval
      by_cases hfal : (falsy b.email || falsy b.password) = true
      · right; right; left; simp [signupHandler, hval, hfal]
      · rw [Bool.not_eq_true, Bool.or_eq_false_iff] at hfal
        by_cases hany : (store.any fun u => u.email == b.email.getD "") = true
        · left; simp [signupHandler, hval, hfal.1, hfal.2, hany]
        · rw [Bool.not_eq_true] at hany
          cases hsig : signFn nextId secret with
          | err =>
            left
            simp [signupHandler, hval, hfal.1, hfal.2, hsig]
            rw [if_neg (by simpa using hany)]
          | ok token =>
            by_cases htok : token = ""
            · subst htok
              right; right; right; left
              simp [signupHandler, hval, hfal.1, hfal.2, hsig]
              rw [if_neg (by simpa using hany)]
            · right; right; right; right
              refine ⟨token, htok, ?_⟩
              simp [signupHandler, hval, hfal.1, hfal.2, hsig, htok]
              rw [if_neg (by simpa using hany)]

theorem signinHandler_result_cases
    (emailOk passwordOk : String → Bool) (signFn : Nat → String → SignResult)
    (secret : String) (store : List User) (req : Request) :
    (signinHandler emailOk passwordOk signFn secret store req).1 =
        ⟨500, Json.str "Failed to login"⟩ ∨
      (signinHandler emailOk passwordOk signFn secret store req).1 =
        ⟨411, Json.str "Invalid input"⟩ ∨
      (signinHandler emailOk passwordOk signFn secret store req).1 =
        ⟨404, Json.str "User not found"⟩ ∨
      ∃ tok, (signinHandler emailOk passwordOk signFn secret store req).1 =
        ⟨200, signinSuccessBody tok⟩ := by
  cases req with
  | malformed => left; rfl
  | body b =>
    by_cases hval : signinValid emailOk passwordOk b = false
    · right; left; simp [signinHandler, hval]
    · rw [Bool.not_eq_false] at hval
      cases hfind : store.find?
          (fun u => u.email == b.email.getD "" && u.password == b.password.getD "") with
      | none => right; right; left; simp [signinHandler, hval, hfind]
      | some u =>
        cases hsig : signFn u.id secret with
        | err => left; simp [signinHandler, hval, hfind, hsig]
        | ok token =>
          right; right; right
          exact ⟨token, by simp [signinHandler, hval, hfind, hsig]⟩

/-- C7: a signup body that passes the spec-modelled schema but carries a
falsy (empty) password is answered by the redundant presence check with the
body `Invalid email or password` and no account creation — but with the
default status 200, not the claimed 411: `c.status(411)` is never called on
this path. -/
theorem signup_falsy_presence_check_status_200 :
    signupHandler (fun _ => true) (fun _ _ => SignResult.ok "t") "sec" [] 1
        (Request.body ⟨none, some "a@x.com", some ""⟩) =
      (⟨200, Json.str "Invalid email or password"⟩, [], []) ∧
    ¬ (signupHandler (fun _ => true) (fun _ _ => SignResult.ok "t") "sec" [] 1
        (Request.body ⟨none, some "a@x.com", some ""⟩)).1.status = 411 := by
  decide

/-- C8: an unparseable body is caught at the orchestration boundary of both
handlers and answered 500 with the fixed generic string; every 500 either
handler ever answers carries one of the fixed constant strings, so no
exception message or stack detail reaches the caller; and a thrown signing
error on an otherwise successful request also lands in the generic 500. -/
theorem unhandled_exceptions_generic_500
    (emailOk passwordOk : String → Bool) (signFn : Nat → String → SignResult)
    (secret : String) (store : List User) (nextId : Nat) (req : Request) :
    ((signupHandler emailOk signFn secret store nextId req).1.status = 500 →
      (signupHandler emailOk signFn secret store nextId req).1.body =
        Json.str "Failed to create user" ∨
      (signupHandler emailOk signFn secret store nextId req).1.body =
        Json.str "Failed to create token") ∧
    ((signinHandler emailOk passwordOk signFn secret store req).1.status = 500 →
      (signinHandler emailOk passwordOk signFn secret store req).1.body =
        Json.str "Failed to login") ∧
    (req = Request.malformed →
      (signupHandler emailOk signFn secret store nextId req).1 =
        ⟨500, Json.str "Failed to create user"⟩ ∧
      (signinHandler emailOk passwordOk signFn secret store req).1 =
        ⟨500, Json.str "Failed to login"⟩) := by
  refine ⟨?_, ?_, ?_⟩
  · rcases signupHandler_result_cases emailOk signFn secret store nextId req with
      h | h | h | h | ⟨tok, htok, h⟩ <;> rw [h] <;> intro hs
    · left; rfl
    · simp at hs
    · simp at hs
    · right; rfl
    · simp at hs
  · rcases signinHandler_result_cases emailOk passwordOk signFn secret store req with
      h | h | h | ⟨tok, h⟩ <;> rw [h] <;> intro hs
    · rfl
    · simp at hs
    · simp at hs
    · simp at hs
  · intro hreq
    subst hreq
    exact ⟨rfl, rfl⟩

/-- C8 witness: at an unparseable body both handlers answer their fixed
generic 500. -/
theorem unhandled_exceptions_generic_500_witness :
    ((signupHandler (fun _ => true) (fun _ _ => SignResult.err) "sec" [] 1
        Request.malformed).1.body = Json.str "Failed to create user" ∨
      (signupHandler (fun _ => true) (fun _ _ => SignResult.err) "sec" [] 1
        Request.malformed).1.body = Json.str "Failed to create token") ∧
    (signinHandler (fun _ => true) (fun _ => true) (fun _ _ => SignResult.err) "sec" []
        Request.malformed).1.body = Json.str "Failed to login" ∧
    ((signupHandler (fun _ => true) (fun _ _ => SignResult.err) "sec" [] 1
        Request.malformed).1 = ⟨500, Json.str "Failed to create user"⟩ ∧
      (signinHandler (fun _ => true) (fun _ => true) (fun _ _ => SignResult.err) "sec" []
        Request.malformed).1 = ⟨500, Json.str "Failed to login"⟩) := by
  have h := unhandled_exceptions_generic_500 (fun _ => true) (fun _ => true)
    (fun _ _ => SignResult.err) "sec" [] 1 Request.malformed
  exact ⟨h.1 rfl, h.2.1 rfl, h.2.2 rfl⟩

/-- C9 counterexample: the response to an unparseable signup body is the
plain JSON string `Failed to create user`; it contains no `message` field,
refuting that every outcome carries one. -/
theorem response_missing_message_field_cex :
    hasField "message"
      ((signupHandler (fun _ => true) (fun _ _ => SignResult.ok "t") "sec" [] 1
        Request.malformed).1.body) = false := by
  decide

/-- C9 amended: every outcome of both handlers carries an HTTP-style status
(200, 404, 411 or 500) and a JSON-shaped body holding a human-readable
message — failures as a plain JSON string, signin success under the
`message` key, signup success under the misspelled `mesaage` key. -/
theorem responses_status_and_human_readable
    (emailOk passwordOk : String → Bool) (signFn : Nat → String → SignResult)
    (secret : String) (store : List User) (nextId : Nat) (req : Request) :
    ((signupHandler emailOk signFn secret store nextId req).1.status = 200 ∨
      (signupHandler emailOk signFn secret store nextId req).1.status = 411 ∨
      (signupHandler emailOk signFn secret store nextId req).1.status = 500) ∧
    humanReadable (signupHandler emailOk signFn secret store nextId req).1.body = true ∧
    ((signinHandler emailOk passwordOk signFn secret store req).1.status = 200 ∨
      (signinHandler emailOk passwordOk signFn secret store req).1.status = 404 ∨
      (signinHandler emailOk passwordOk signFn secret store req).1.status = 411 ∨
      (signinHandler emailOk passwordOk signFn secret store req).1.status = 500) ∧
    humanReadable (signinHandler emailOk passwordOk signFn secret store req).1.body =
      true := by
  refine ⟨?_, ?_, ?_, ?_⟩
  · rcases signupHandler_result_cases emailOk signFn secret store nextId req with
      h | h | h | h | ⟨tok, htok, h⟩ <;> rw [h] <;> simp
  · rcases signupHandler_result_cases emailOk signFn secret store nextId req with
      h | h | h | h | ⟨tok, htok, h⟩ <;> rw [h] <;>
      simp [humanReadable, signupSuccessBody]
  · rcases signinHandler_result_cases emailOk passwordOk signFn secret store req with
      h | h | h | ⟨tok, h⟩ <;> rw [h] <;> simp
  · rcases signinHandler_result_cases emailOk passwordOk signFn secret store req with
      h | h | h | ⟨tok, h⟩ <;> rw [h] <;> simp [humanReadable, signinSuccessBody]

/-- C10: a fresh, schema-valid signup performed with the spec-modelled token
issuer answers 200 success carrying the token signed for the created
account's id, and decoding that token with the same signing secret yields
exactly that id. -/
theorem signup_token_roundtrip
    (emailOk : String → Bool) (secret : String) (store : List User) (nextId : Nat)
    (b : Body) (e p : String)
    (he : b.email = some e) (hp : b.password = some p)
    (hv : signupValid emailOk b = true) (hef : ¬ e = "") (hpf : ¬ p = "")
    (hfresh : store.any (fun u => u.email == e) = false) :
    signupHandler emailOk (fun i s => SignResult.ok (signToken i s)) secret store nextId
        (Request.body b) =
      (⟨200, signupSuccessBody (signToken nextId secret)⟩,
       [StoreCall.create b.name e p], store ++ [⟨nextId, b.name, e, p⟩]) ∧
    decodeToken (signToken nextId secret) secret = some nextId := by
  have hfe : falsy b.email = false := by rw [he]; simp [falsy]; exact hef
  have hfp : falsy b.password = false := by rw [hp]; simp [falsy]; exact hpf
  have he2 : b.email.getD "" = e := by rw [he]; rfl
  have hp2 : b.password.getD "" = p := by rw [hp]; rfl
  have hfresh2 : ∀ x ∈ store, ¬ x.email = e := by simpa using hfresh
  constructor
  · simp [signupHandler, hv, hfe, hfp, he2, hp2, signToken_ne_empty]
    exact hfresh2
  · exact decodeToken_signToken nextId secret

/-- C10 witness: the fresh signup of `a@x.com` answers the signed token for
account id 1, and decoding it with the same secret yields 1. -/
theorem signup_token_roundtrip_witness :
    signupHandler (fun _ => true) (fun i s => SignResult.ok (signToken i s)) "sec" [] 1
        (Request.body ⟨none, some "a@x.com", some "p1"⟩) =
      (⟨200, signupSuccessBody (signToken 1 "sec")⟩,
       [StoreCall.create none "a@x.com" "p1"],
       [⟨1, none, "a@x.com", "p1"⟩]) ∧
    decodeToken (signToken 1 "sec") "sec" = some 1 :=
  signup_token_roundtrip (fun _ => true) "sec" [] 1
    ⟨none, some "a@x.com", some "p1"⟩ "a@x.com" "p1" rfl rfl rfl
    (by decide) (by decide) rfl

end MediumBlog
